import Mathlib

/-
  Verification development for the VO-aicontentModeration repository.

  Shallow embedding of the moderation decision engine:
  * enumerations               — src/scripts/models/enums.py
  * reputation model           — src/scripts/models/user.py, src/scripts/services/reputation_service.py
  * triage tier                — src/scripts/services/triage_service.py
  * ML scoring tier            — src/scripts/services/ml_scoring_service.py
  * orchestrator               — src/scripts/services/moderation_service.py
  * stream processor (Flow B)  — src/scripts/streaming/flink_processor.py

  Modelling conventions:
  * Python floats are modelled as rationals (ℚ); all thresholds in the source
    are decimal literals, so every comparison is exact.
  * datetimes are modelled at the granularity each claim needs: whole days
    since an epoch for the reputation engine (the source only ever uses
    `.days` of a timedelta there), and (minute, second, microsecond)
    triples for the Flink window assigner (the source manipulates exactly
    those fields).
  * `math.exp(-days/90)` is transcendental, hence not a computable rational;
    the decay curve is a function parameter `decay : ℕ → ℚ` of the
    reputation engine, constrained to be nonnegative where a theorem
    needs it.  No claim in scope depends on the exact exponential values.
  * the regular-expression primitives of the triage tier and the MD5 digest
    are library calls in the source; they are function parameters of the
    embedding (`TriageCheckers`, `md5hexFn`).  All control flow, thresholds,
    severities and confidences around them are embedded faithfully.
  * `random.uniform(a, b)` draws of the simulated ML scorer are explicit
    noise inputs constrained to the interval the source draws from.
  * wall-clock processing-time bookkeeping (`_calc_time_ms`) is modelled as
    0 ms; no claim in scope depends on it.
-/

namespace ContentMod

/-- Content lifecycle status, from models/enums.py `ContentStatus`. -/
inductive ContentStatus where
  | pending
  | in_review
  | approved
  | rejected
  | escalated
  | quarantined
deriving DecidableEq, Repr

/-- String value of a `ContentStatus`, as in the Python `str, Enum`. -/
def ContentStatus.value : ContentStatus → String
  | .pending => "pending"
  | .in_review => "in_review"
  | .approved => "approved"
  | .rejected => "rejected"
  | .escalated => "escalated"
  | .quarantined => "quarantined"

/-- Severity levels, from models/enums.py `SeverityLevel` (an IntEnum 0..4). -/
inductive SeverityLevel where
  | none
  | low
  | medium
  | high
  | critical
deriving DecidableEq, Repr

/-- Numeric value of a severity, as in the Python IntEnum. -/
def SeverityLevel.val : SeverityLevel → ℕ
  | .none => 0
  | .low => 1
  | .medium => 2
  | .high => 3
  | .critical => 4

/-- Python `max` of two severities (IntEnum comparison is numeric). -/
def SeverityLevel.pymax (a b : SeverityLevel) : SeverityLevel :=
  if b.val ≤ a.val then a else b

/-- Decision source, from models/enums.py `DecisionSource`. -/
inductive DecisionSource where
  | tier1_triage
  | tier2_ml
  | tier3_human
  | step_function
  | realtime_flink
deriving DecidableEq, Repr

/-- Review priority, from models/enums.py `ReviewPriority` (IntEnum 1..5). -/
inductive ReviewPriority where
  | low
  | medium
  | high
  | urgent
  | critical
deriving DecidableEq, Repr

/-- Violation kinds, from models/enums.py `ViolationType`. -/
inductive ViolationType where
  | spam
  | profanity
  | hate_speech
  | harassment
  | violence
  | adult_content
  | misinformation
  | pii_exposure
  | copyright
  | csam
  | threat
deriving DecidableEq, Repr

/-- String value of a `ViolationType`, as in the Python `str, Enum`. -/
def ViolationType.value : ViolationType → String
  | .spam => "spam"
  | .profanity => "profanity"
  | .hate_speech => "hate_speech"
  | .harassment => "harassment"
  | .violence => "violence"
  | .adult_content => "adult_content"
  | .misinformation => "misinformation"
  | .pii_exposure => "pii_exposure"
  | .copyright => "copyright"
  | .csam => "csam"
  | .threat => "threat"

/-- User risk classification, from models/enums.py `UserRiskLevel`. -/
inductive UserRiskLevel where
  | trusted
  | normal
  | watch
  | restricted
  | banned
deriving DecidableEq, Repr

/-- String value of a `UserRiskLevel`. -/
def UserRiskLevel.value : UserRiskLevel → String
  | .trusted => "trusted"
  | .normal => "normal"
  | .watch => "watch"
  | .restricted => "restricted"
  | .banned => "banned"

/-- Processing tiers, from models/enums.py `ProcessingTier`. -/
inductive ProcessingTier where
  | tier1_fast
  | tier2_ml
  | tier3_complex
  | tier4_human
deriving DecidableEq, Repr

/-- One past violation of a user, from models/user.py `ViolationHistory`.
Timestamps are whole days since an epoch. -/
structure ViolationHistory where
  violation_type : ViolationType
  severity : ℕ
  content_id : ℕ
  timestampDay : ℕ
  action_taken : String
deriving DecidableEq, Repr

/-- Per-user reputation record, from models/user.py `ReputationScore`.
Field defaults mirror the pydantic defaults. -/
structure ReputationScore where
  overall_score : ℚ := 50
  content_quality : ℚ := 50
  community_standing : ℚ := 50
  account_age_factor : ℚ := 0
  total_posts : ℕ := 0
  approved_posts : ℕ := 0
  rejected_posts : ℕ := 0
  approval_rate : ℚ := 1
  posts_last_hour : ℕ := 0
  posts_last_day : ℕ := 0
  posts_last_week : ℕ := 0
  total_violations : ℕ := 0
  violations_last_30_days : ℕ := 0
  violation_history : List ViolationHistory := []
  last_violationDay : Option ℕ := Option.none
deriving DecidableEq, Repr

/-- models/user.py `ReputationScore.calculate_risk_level`. -/
def ReputationScore.calculateRiskLevel (r : ReputationScore) : UserRiskLevel :=
  if r.overall_score ≥ 80 ∧ r.violations_last_30_days = 0 then .trusted
  else if r.overall_score ≥ 50 ∧ r.violations_last_30_days ≤ 1 then .normal
  else if r.overall_score ≥ 30 ∨ r.violations_last_30_days ≤ 3 then .watch
  else if r.overall_score ≥ 10 then .restricted
  else .banned

/-- User entity, from models/user.py `User` (moderation-relevant fields).
`created_atDay` and the sanction deadlines are whole days since an epoch. -/
structure User where
  id : ℕ
  username : String
  is_active : Bool := true
  is_verified : Bool := false
  risk_level : UserRiskLevel := .normal
  reputation : ReputationScore := {}
  is_muted : Bool := false
  muted_untilDay : Option ℕ := Option.none
  is_banned : Bool := false
  banned_untilDay : Option ℕ := Option.none
  ban_reason : Option String := Option.none
  rate_limit_multiplier : ℚ := 1
  created_atDay : ℕ := 0
deriving DecidableEq, Repr

/-- Derived routing profile, from models/user.py `UserRiskProfile`. -/
structure UserRiskProfile where
  user_id : ℕ
  risk_level : UserRiskLevel
  risk_score : ℚ
  requires_human_review : Bool := false
  fast_track_approved : Bool := false
  shadow_banned : Bool := false
  max_posts_per_minute : ℕ := 10
  max_posts_per_hour : ℕ := 100
  current_velocity : ℚ := 0
  is_bursting : Bool := false
deriving DecidableEq, Repr

/-- The reputation service's in-memory user store
(`ReputationService.users`), as an association list keyed by user id. -/
abbrev UserStore := List (ℕ × User)

/-- `self.users.get(user_id)`. -/
def lookupUser (store : UserStore) (uid : ℕ) : Option User :=
  List.lookup uid store

/-- Write a user back into the store (Python mutates the stored object). -/
def updateUser : UserStore → ℕ → User → UserStore
  | [], _, _ => []
  | p :: rest, uid, u =>
    (if p.1 = uid then (p.1, u) else p) :: updateUser rest uid u

/-- reputation_service.py `_calculate_violation_impact`: time-decayed sum of
severity weights, capped at 100.  The loop accumulates exactly the sum below;
`decay d` stands for `math.exp(-d / 90)`. -/
def calcViolationImpact (decay : ℕ → ℚ) (nowDay : ℕ) (vs : List ViolationHistory) : ℚ :=
  if vs = [] then 0
  else min 100 ((vs.map (fun v => (v.severity : ℚ) * 10 * decay (nowDay - v.timestampDay))).sum)

/-- reputation_service.py `calculate_reputation`, as the pure update of the
user's `ReputationScore` (the Python method mutates `user.reputation` in
place and returns it). -/
def calculateReputationScore (decay : ℕ → ℚ) (nowDay : ℕ) (u : User) : ReputationScore :=
  let rep := u.reputation
  let approval_rate : ℚ :=
    if rep.total_posts > 0 then (rep.approved_posts : ℚ) / (rep.total_posts : ℚ)
    else rep.approval_rate
  let ageDays : ℕ := nowDay - u.created_atDay
  let age : ℚ := min 100 ((ageDays : ℚ) / (365 / 100))
  let impact : ℚ := calcViolationImpact decay nowDay rep.violation_history
  let overall : ℚ :=
    approval_rate * 100 * (3 / 10) + age * (2 / 10) +
      (100 - impact) * (3 / 10) + rep.community_standing * (2 / 10)
  { rep with
    approval_rate := approval_rate
    account_age_factor := age
    overall_score := overall }

/-- reputation_service.py `_get_rate_limit`. -/
def getRateLimitMinute : UserRiskLevel → ℕ
  | .trusted => 20
  | .normal => 10
  | .watch => 5
  | .restricted => 2
  | .banned => 0

/-- reputation_service.py `_get_rate_limit` (hourly column). -/
def getRateLimitHour : UserRiskLevel → ℕ
  | .trusted => 200
  | .normal => 100
  | .watch => 50
  | .restricted => 20
  | .banned => 0

/-- reputation_service.py `_apply_automatic_sanctions`. -/
def applyAutomaticSanctions (nowDay : ℕ) (u : User) (vt : ViolationType) : User :=
  if vt = .csam ∨ vt = .threat then
    { u with is_banned := true, ban_reason := some ("Critical violation: " ++ vt.value) }
  else
    let recent := u.reputation.violations_last_30_days
    if recent ≥ 5 then
      { u with is_banned := true, banned_untilDay := some (nowDay + 30),
               ban_reason := some "Repeated violations" }
    else if recent ≥ 3 then
      { u with is_muted := true, muted_untilDay := some (nowDay + 1),
               risk_level := .restricted }
    else if recent ≥ 2 then
      { u with risk_level := .watch, rate_limit_multiplier := 2 }
    else u

/-- reputation_service.py `record_violation`.  Returns the updated store;
a missing user is a no-op (`if not user: return`). -/
def recordViolation (decay : ℕ → ℚ) (nowDay : ℕ) (store : UserStore) (uid : ℕ)
    (vt : ViolationType) (severity : ℕ) (contentId : ℕ) (action : String) : UserStore :=
  match lookupUser store uid with
  | Option.none => store
  | some u =>
    let v : ViolationHistory :=
      { violation_type := vt, severity := severity, content_id := contentId,
        timestampDay := nowDay, action_taken := action }
    let rep1 :=
      { u.reputation with
        violation_history := u.reputation.violation_history ++ [v]
        total_violations := u.reputation.total_violations + 1
        violations_last_30_days := u.reputation.violations_last_30_days + 1
        last_violationDay := some nowDay
        rejected_posts := u.reputation.rejected_posts + 1 }
    let u1 := { u with reputation := rep1 }
    let rep2 := calculateReputationScore decay nowDay u1
    let u2 := { u1 with reputation := rep2, risk_level := rep2.calculateRiskLevel }
    let u3 := applyAutomaticSanctions nowDay u2 vt
    updateUser store uid u3

/-- reputation_service.py `record_approval`.  Returns the updated store;
a missing user is a no-op.  Note the clamped +0.1 bump is immediately
followed by a full `calculate_reputation`, which overwrites
`overall_score`. -/
def recordApproval (decay : ℕ → ℚ) (nowDay : ℕ) (store : UserStore) (uid : ℕ) : UserStore :=
  match lookupUser store uid with
  | Option.none => store
  | some u =>
    let rep1 :=
      { u.reputation with
        total_posts := u.reputation.total_posts + 1
        approved_posts := u.reputation.approved_posts + 1 }
    let rep2 := { rep1 with overall_score := min 100 (rep1.overall_score + 1 / 10) }
    let u1 := { u with reputation := rep2 }
    let rep3 := calculateReputationScore decay nowDay u1
    updateUser store uid { u1 with reputation := rep3 }

/-- reputation_service.py `get_risk_profile`.  Returns the profile and the
updated store (`calculate_reputation` mutates the stored user). -/
def getRiskProfile (decay : ℕ → ℚ) (nowDay : ℕ) (store : UserStore) (uid : ℕ) :
    UserRiskProfile × UserStore :=
  match lookupUser store uid with
  | Option.none =>
    ({ user_id := uid, risk_level := .normal, risk_score := 1 / 2 }, store)
  | some u =>
    let rep := calculateReputationScore decay nowDay u
    let store1 := updateUser store uid { u with reputation := rep }
    let riskLevel := rep.calculateRiskLevel
    let riskScore : ℚ := 1 - rep.overall_score / 100
    ({ user_id := uid
       risk_level := riskLevel
       risk_score := riskScore
       requires_human_review := riskLevel = .watch ∨ riskLevel = .restricted
       fast_track_approved := riskLevel = .trusted
       shadow_banned := u.is_banned ∧ u.banned_untilDay = Option.none
       max_posts_per_minute := getRateLimitMinute riskLevel
       max_posts_per_hour := getRateLimitHour riskLevel
       current_velocity := (rep.posts_last_hour : ℚ) / 60
       is_bursting := (rep.posts_last_hour : ℚ) > (getRateLimitHour riskLevel : ℚ) * (1 / 2) },
     store1)

/-- Truthiness of Python `Optional[str]` (`None` and `""` are falsy). -/
def optStrTruthy : Option String → Bool
  | Option.none => false
  | some s => s ≠ ""

/-- Python `str.lower()`, written structurally over the character list. -/
def strLower (s : String) : String := String.mk (s.data.map Char.toLower)

/-- Python `pat in text`: substring containment. -/
def hasSub (text pat : String) : Bool :=
  text.data.tails.any (fun t => pat.data.isPrefixOf t)

/-- Python `text.count(pat)`: greedy left-to-right count of
non-overlapping occurrences (fuel-indexed structural recursion). -/
def pyCountAux (pat : List Char) : ℕ → List Char → ℕ
  | 0, _ => 0
  | _ + 1, [] => 0
  | fuel + 1, c :: rest =>
    if pat.isPrefixOf (c :: rest) then 1 + pyCountAux pat fuel ((c :: rest).drop pat.length)
    else pyCountAux pat fuel rest

/-- Python `text.count(pat)`. -/
def pyCount (text pat : String) : ℕ := pyCountAux pat.data text.data.length text.data

/-- Content entity, from models/content.py `Content` (fields the engine
reads).  Identifiers are natural numbers standing for UUIDs. -/
structure Content where
  id : ℕ
  user_id : ℕ
  text_content : Option String := Option.none
  image_url : Option String := Option.none
  media_urls : List String := []
deriving DecidableEq, Repr

/-- ML model scores, from models/content.py `MLScores` (pydantic defaults). -/
structure MLScores where
  toxicity : ℚ := 0
  spam_probability : ℚ := 0
  hate_speech : ℚ := 0
  harassment : ℚ := 0
  violence : ℚ := 0
  adult_content : ℚ := 0
  sentiment : ℚ := 0
  confidence : ℚ := 0
deriving DecidableEq, Repr

/-- Image analysis record, from models/content.py `ImageAnalysis` (the
fields `_detect_violations` reads). -/
structure ImageAnalysis where
  explicit_nudity : ℚ := 0
  violence : ℚ := 0
  weapons_detected : Bool := false
deriving DecidableEq, Repr

/-- Flow A terminal record, from models/content.py `ModerationResult`
(fields the engine writes and reads). -/
structure ModerationResult where
  content_id : ℕ
  decision : ContentStatus
  decision_source : DecisionSource
  severity : SeverityLevel := .none
  violations : List ViolationType := []
  ml_scores : Option MLScores := Option.none
  image_analysis : Option ImageAnalysis := Option.none
  reputation_score : Option ℚ := Option.none
  combined_risk_score : ℚ := 0
  processing_time_ms : ℕ := 0
  tier_processed : ProcessingTier := .tier1_fast
  notes : Option String := Option.none
deriving DecidableEq, Repr

/-- Result of Tier 1 triage, from triage_service.py `TriageResult`. -/
structure TriageResult where
  should_block : Bool
  violations : List ViolationType
  severity : SeverityLevel
  confidence : ℚ
  matched_patterns : List String
  processing_time_ms : ℕ
deriving DecidableEq, Repr

/-- The triage tier's pattern-matching primitives.  The source compiles
fixed regex lists and calls `hashlib.md5`; these are library calls, so the
embedding takes them as functions.  `checkCritical text` returns the
patterns of `CRITICAL_PATTERNS` matching `text` (cf. `_check_critical`,
which appends one `THREAT` violation per matching pattern);
`checkBlockedDomains` is `_check_blocked_domains`; `checkSpam text
text_lower` returns the matched-pattern labels of `_check_spam`;
`checkProfanity` those of `_check_profanity`; `md5hexFn` is
`hashlib.md5(text.encode()).hexdigest()`. -/
structure TriageCheckers where
  checkCritical : String → List String
  checkBlockedDomains : String → Bool
  checkSpam : String → String → List String
  checkProfanity : String → List String
  md5hexFn : String → String

/-- triage_service.py `_is_duplicate`: hash-cache membership test plus
cache update.  The cache is the `recent_hashes` set, modelled as a list
without duplicates; `set.pop()` evicts an unspecified element, modelled
as dropping the oldest. -/
def isDuplicate (md5hexFn : String → String) (cache : List String) (text : String) :
    Bool × List String :=
  let h := md5hexFn text
  if cache.contains h then (true, cache)
  else
    let c := cache ++ [h]
    if c.length > 10000 then (false, c.drop 1) else (false, c)

/-- triage_service.py `TriageService.triage`: the Tier 1 decision.
Returns the triage result and the updated duplicate cache. -/
def triage (ck : TriageCheckers) (cache : List String) (content : Content) :
    TriageResult × List String :=
  let text := content.text_content.getD ""
  let text_lower := strLower text
  let critPats := ck.checkCritical text
  if critPats ≠ [] then
    ({ should_block := true
       violations := critPats.map (fun _ => ViolationType.threat)
       severity := .critical
       confidence := 99 / 100
       matched_patterns := critPats
       processing_time_ms := 0 }, cache)
  else
    let domainHit := ck.checkBlockedDomains text
    let viol1 : List ViolationType := if domainHit then [.spam] else []
    let pats1 : List String := if domainHit then ["blocked_domain"] else []
    let sev1 : SeverityLevel := if domainHit then SeverityLevel.pymax .none .high else .none
    let conf1 : ℚ := if domainHit then max 0 (95 / 100) else 0
    let spamPats := ck.checkSpam text text_lower
    let viol2 := if spamPats ≠ [] then viol1 ++ [.spam] else viol1
    let pats2 := pats1 ++ spamPats
    let sev2 := if spamPats ≠ [] then SeverityLevel.pymax sev1 .medium else sev1
    let conf2 := if spamPats ≠ [] then max conf1 (8 / 10) else conf1
    let profPats := ck.checkProfanity text
    let viol3 := if profPats ≠ [] then viol2 ++ [.profanity] else viol2
    let pats3 := pats2 ++ profPats
    let sev3 := if profPats ≠ [] then SeverityLevel.pymax sev2 .low else sev2
    let conf3 := if profPats ≠ [] then max conf2 (9 / 10) else conf2
    let dup := isDuplicate ck.md5hexFn cache text
    let viol4 := if dup.1 then viol3 ++ [.spam] else viol3
    let pats4 := if dup.1 then pats3 ++ ["duplicate_content"] else pats3
    let sev4 := if dup.1 then SeverityLevel.pymax sev3 .low else sev3
    let conf4 := if dup.1 then max conf3 (85 / 100) else conf3
    let shouldBlock := sev4.val ≥ SeverityLevel.high.val ∨
      (sev4.val ≥ SeverityLevel.medium.val ∧ conf4 ≥ 9 / 10)
    ({ should_block := shouldBlock
       violations := viol4
       severity := sev4
       confidence := conf4
       matched_patterns := pats4
       processing_time_ms := 0 }, dup.2)

/-- triage_service.py `create_moderation_result`. -/
def createModerationResult (content : Content) (tr : TriageResult) : ModerationResult :=
  { content_id := content.id
    decision := if tr.should_block then .rejected else .pending
    decision_source := .tier1_triage
    severity := tr.severity
    violations := tr.violations
    combined_risk_score := tr.confidence
    processing_time_ms := tr.processing_time_ms
    tier_processed := .tier1_fast
    notes := some ("Matched patterns: " ++ String.intercalate ", " tr.matched_patterns) }

/-- Number of entries of `words` occurring in `text`
(`sum(1 for w in words if w in text)`). -/
def countHits (text : String) (words : List String) : ℕ :=
  (words.filter (fun w => hasSub text w)).length

/-- The `random.uniform` draws of the simulated ML scorer
(ml_scoring_service.py `_simulate_*_score`), one per call site. -/
structure MLNoise where
  ntox : ℚ := 0
  nspam : ℚ := 0
  nhate : ℚ := 0
  nharass : ℚ := 0
  nviol : ℚ := 0
  nadult : ℚ := 0
deriving DecidableEq, Repr

/-- The ranges the source draws each noise value from:
uniform(0,0.2), uniform(0,0.15), uniform(0,0.3), uniform(0,0.2),
uniform(0,0.1), uniform(0,0.2) respectively. -/
def MLNoise.Valid (n : MLNoise) : Prop :=
  0 ≤ n.ntox ∧ n.ntox ≤ 1 / 5 ∧ 0 ≤ n.nspam ∧ n.nspam ≤ 3 / 20 ∧
  0 ≤ n.nhate ∧ n.nhate ≤ 3 / 10 ∧ 0 ≤ n.nharass ∧ n.nharass ≤ 1 / 5 ∧
  0 ≤ n.nviol ∧ n.nviol ≤ 1 / 10 ∧ 0 ≤ n.nadult ∧ n.nadult ≤ 1 / 5

/-- ml_scoring_service.py `_simulate_toxicity_score`. -/
def simulateToxicity (text : String) (n : MLNoise) : ℚ :=
  min 1 ((countHits text ["hate", "stupid", "idiot", "moron", "loser"] : ℚ) * (2 / 10) + n.ntox)

/-- ml_scoring_service.py `_simulate_spam_score`. -/
def simulateSpam (text : String) (n : MLNoise) : ℚ :=
  min 1 ((countHits text ["buy now", "click here", "free", "$$$", "limited time"] : ℚ) * (25 / 100) + n.nspam)

/-- ml_scoring_service.py `_simulate_hate_speech_score` (pure noise). -/
def simulateHateSpeech (n : MLNoise) : ℚ := n.nhate

/-- ml_scoring_service.py `_simulate_harassment_score`. -/
def simulateHarassment (text : String) (n : MLNoise) : ℚ :=
  min 1 ((countHits text ["you should", "you are a", "people like you"] : ℚ) * (3 / 10) + n.nharass)

/-- ml_scoring_service.py `_simulate_violence_score`. -/
def simulateViolence (text : String) (n : MLNoise) : ℚ :=
  min 1 ((countHits text ["kill", "hurt", "attack", "fight", "destroy"] : ℚ) * (25 / 100) + n.nviol)

/-- ml_scoring_service.py `_simulate_adult_score` (pure noise). -/
def simulateAdult (n : MLNoise) : ℚ := n.nadult

/-- ml_scoring_service.py `_simulate_sentiment_score`. -/
def simulateSentiment (text : String) : ℚ :=
  let pos := countHits text ["good", "great", "love", "happy", "wonderful"]
  let neg := countHits text ["bad", "hate", "sad", "terrible", "awful"]
  if pos + neg = 0 then 0 else ((pos : ℚ) - (neg : ℚ)) / ((pos : ℚ) + (neg : ℚ))

/-- ml_scoring_service.py `_score_text`: empty/absent text yields the
default `MLScores()`; otherwise feature scoring over the lowercased text,
with `confidence = min(0.95, 0.5 + len(text)/1000)`. -/
def scoreTextML (text : Option String) (n : MLNoise) : MLScores :=
  if optStrTruthy text = false then {}
  else
    let t := text.getD ""
    let tl := strLower t
    { toxicity := simulateToxicity tl n
      spam_probability := simulateSpam tl n
      hate_speech := simulateHateSpeech n
      harassment := simulateHarassment tl n
      violence := simulateViolence tl n
      adult_content := simulateAdult n
      sentiment := simulateSentiment tl
      confidence := min (95 / 100) (1 / 2 + (t.length : ℚ) / 1000) }

/-- ml_scoring_service.py `_detect_violations`: threshold rules over text
scores, then image rules; `list(set(...))` is modelled as `dedup`. -/
def detectViolationsML (s : MLScores) (ia : Option ImageAnalysis) :
    List ViolationType × SeverityLevel :=
  let v0 : List ViolationType := []
  let sev0 : SeverityLevel := .none
  let v1 := if s.toxicity ≥ 7 / 10 then v0 ++ [.harassment] else v0
  let sev1 := if s.toxicity ≥ 7 / 10 then SeverityLevel.pymax sev0 .medium else sev0
  let v2 := if s.spam_probability ≥ 8 / 10 then v1 ++ [.spam] else v1
  let sev2 := if s.spam_probability ≥ 8 / 10 then SeverityLevel.pymax sev1 .low else sev1
  let v3 := if s.hate_speech ≥ 6 / 10 then v2 ++ [.hate_speech] else v2
  let sev3 := if s.hate_speech ≥ 6 / 10 then SeverityLevel.pymax sev2 .high else sev2
  let v4 := if s.harassment ≥ 65 / 100 then v3 ++ [.harassment] else v3
  let sev4 := if s.harassment ≥ 65 / 100 then SeverityLevel.pymax sev3 .medium else sev3
  let v5 := if s.violence ≥ 7 / 10 then v4 ++ [.violence] else v4
  let sev5 := if s.violence ≥ 7 / 10 then SeverityLevel.pymax sev4 .high else sev4
  let v6 := if s.adult_content ≥ 75 / 100 then v5 ++ [.adult_content] else v5
  let sev6 := if s.adult_content ≥ 75 / 100 then SeverityLevel.pymax sev5 .medium else sev5
  match ia with
  | Option.none => (v6.dedup, sev6)
  | some img =>
    let v7 := if img.explicit_nudity ≥ 7 / 10 then v6 ++ [.adult_content] else v6
    let sev7 := if img.explicit_nudity ≥ 7 / 10 then SeverityLevel.pymax sev6 .high else sev6
    let v8 := if img.violence ≥ 7 / 10 then v7 ++ [.violence] else v7
    let sev8 := if img.violence ≥ 7 / 10 then SeverityLevel.pymax sev7 .high else sev7
    let v9 := if img.weapons_detected then v8 ++ [.violence] else v8
    let sev9 := if img.weapons_detected then SeverityLevel.pymax sev8 .medium else sev8
    (v9.dedup, sev9)

/-- ml_scoring_service.py `_needs_human_review`: low confidence, or a
borderline band of width 0.1 around the toxicity / hate-speech /
harassment thresholds. -/
def needsHumanReviewML (s : MLScores) : Bool :=
  if s.confidence < 1 / 2 then true
  else
    decide (|s.toxicity - 7 / 10| < 1 / 10) ||
    decide (|s.hate_speech - 6 / 10| < 1 / 10) ||
    decide (|s.harassment - 65 / 100| < 1 / 10)

/-- Combined ML result, from ml_scoring_service.py `MLScoringResult`. -/
structure MLScoringResult where
  ml_scores : MLScores
  image_analysis : Option ImageAnalysis
  detected_violations : List ViolationType
  recommended_severity : SeverityLevel
  needs_human_review : Bool
  processing_time_ms : ℕ
deriving DecidableEq, Repr

/-- ml_scoring_service.py `score_content`.  The Rekognition simulation of
`_analyze_image` is a pure random draw in the source; the drawn record is
the explicit input `imgDraw`, used only when the content carries an image
or media (the same truthiness test as the source). -/
def scoreContentML (content : Content) (n : MLNoise) (imgDraw : ImageAnalysis) :
    MLScoringResult :=
  let scores := scoreTextML content.text_content n
  let ia : Option ImageAnalysis :=
    if optStrTruthy content.image_url ∨ content.media_urls ≠ [] then some imgDraw
    else Option.none
  let dv := detectViolationsML scores ia
  { ml_scores := scores
    image_analysis := ia
    detected_violations := dv.1
    recommended_severity := dv.2
    needs_human_review := needsHumanReviewML scores
    processing_time_ms := 0 }

/-- SLA wait times in minutes, from models/review.py `DEFAULT_SLAS`. -/
def slaMaxWaitMinutes : ReviewPriority → ℕ
  | .low => 1440
  | .medium => 240
  | .high => 60
  | .urgent => 15
  | .critical => 5

/-- Human review task, from models/review.py `ReviewTask` (fields the
orchestrator fills in).  The SLA deadline `now + timedelta(minutes=...)`
is modelled by the minute offset itself. -/
structure ReviewTask where
  content_id : ℕ
  text_previewR : Option String
  image_urlsR : List String
  user_id : ℕ
  username : String
  priority : ReviewPriority
  sla_deadline_minutes : ℕ
  escalation_reason : String
  detected_violations : List ViolationType
  ml_confidence : ℚ
deriving DecidableEq, Repr

/-- moderation_service.py `ModerationPipelineResult` (minus wall-clock
timing). -/
structure ModerationPipelineResult where
  content : Content
  result : ModerationResult
  routing_path : List String
  review_task : Option ReviewTask := Option.none
deriving DecidableEq, Repr

/-- Mutable state threaded through a `moderate_content` call: the
reputation store and the triage duplicate cache. -/
structure PipelineState where
  store : UserStore
  cache : List String
deriving DecidableEq, Repr

/-- moderation_service.py `_can_fast_approve`. -/
def canFastApprove (profile : UserRiskProfile) (content : Content) : Bool :=
  if profile.fast_track_approved = false then false
  else if optStrTruthy content.image_url ∨ content.media_urls ≠ [] then false
  else if profile.is_bursting then false
  else true

/-- moderation_service.py `_create_fast_approval` (processing time 5 ms in
the source; kept literally). -/
def createFastApproval (content : Content) : ModerationResult :=
  { content_id := content.id
    decision := .approved
    decision_source := .tier1_triage
    severity := .none
    violations := []
    combined_risk_score := 0
    processing_time_ms := 5
    tier_processed := .tier1_fast
    notes := some "Fast-tracked: trusted user" }

/-- moderation_service.py `_combine_scores`: weighted combination
0.3·triage-confidence + 0.5·(1 − ml-confidence) + 0.2·risk-score, union of
violations (`list(set(...))` as `dedup`), maximum severity. -/
def combineScores (content : Content) (tr : TriageResult) (ml : MLScoringResult)
    (profile : UserRiskProfile) : ModerationResult :=
  let combined : ℚ :=
    tr.confidence * (3 / 10) + (1 - ml.ml_scores.confidence) * (5 / 10) +
      profile.risk_score * (2 / 10)
  { content_id := content.id
    decision := .pending
    decision_source := .tier2_ml
    severity := SeverityLevel.pymax tr.severity ml.recommended_severity
    violations := (tr.violations ++ ml.detected_violations).dedup
    ml_scores := some ml.ml_scores
    image_analysis := ml.image_analysis
    reputation_score := some profile.risk_score
    combined_risk_score := combined
    processing_time_ms := tr.processing_time_ms + ml.processing_time_ms
    tier_processed := .tier2_ml }

/-- moderation_service.py `_make_final_decision`. -/
def makeFinalDecision (result : ModerationResult) : ContentStatus :=
  if result.severity = .critical then .rejected
  else if result.severity = .high ∧ result.combined_risk_score > 7 / 10 then .rejected
  else if result.severity = .medium then .quarantined
  else if result.combined_risk_score < 3 / 10 then .approved
  else .approved

/-- moderation_service.py `_create_review_task`. -/
def createReviewTask (content : Content) (result : ModerationResult)
    (ml : MLScoringResult) : ReviewTask :=
  let priority : ReviewPriority :=
    match result.severity with
    | .critical => .critical
    | .high => .urgent
    | .medium => .high
    | .low => .medium
    | .none => .low
  { content_id := content.id
    text_previewR :=
      if optStrTruthy content.text_content then (content.text_content.getD "").take 500 |> some
      else Option.none
    image_urlsR :=
      if optStrTruthy content.image_url then [content.image_url.getD ""]
      else content.media_urls
    user_id := content.user_id
    username := "unknown"
    priority := priority
    sla_deadline_minutes := slaMaxWaitMinutes priority
    escalation_reason := "ML confidence low or borderline scores"
    detected_violations := result.violations
    ml_confidence := ml.ml_scores.confidence }

/-- moderation_service.py `_record_violation`: one reputation-store
violation per violation kind of the result, with the result's numeric
severity. -/
def recordViolationsFor (decay : ℕ → ℚ) (nowDay : ℕ) (store : UserStore)
    (content : Content) (result : ModerationResult) : UserStore :=
  result.violations.foldl
    (fun st v =>
      recordViolation decay nowDay st content.user_id v result.severity.val
        content.id "content_rejected")
    store

/-- moderation_service.py `moderate_content`: the tiered pipeline.
Inputs beyond the content: the triage primitives `ck`, the reputation
decay curve and clock, the mutable state (reputation store + duplicate
cache), the ML noise draw and the Rekognition draw.  Returns the pipeline
result and the post-call state. -/
def moderateContent (ck : TriageCheckers) (decay : ℕ → ℚ) (nowDay : ℕ)
    (st : PipelineState) (content : Content) (n : MLNoise) (imgDraw : ImageAnalysis) :
    ModerationPipelineResult × PipelineState :=
  let rp := getRiskProfile decay nowDay st.store content.user_id
  let profile := rp.1
  let store1 := rp.2
  let path1 := ["risk_assessment:" ++ profile.risk_level.value]
  if canFastApprove profile content then
    let result := createFastApproval content
    let store2 := recordApproval decay nowDay store1 content.user_id
    ({ content := content, result := result, routing_path := path1 ++ ["fast_approve"] },
     { store := store2, cache := st.cache })
  else
    let path2 := path1 ++ ["tier1_triage"]
    let trc := triage ck st.cache content
    let tr := trc.1
    let cache1 := trc.2
    if tr.should_block then
      let result := createModerationResult content tr
      let store2 := recordViolationsFor decay nowDay store1 content result
      ({ content := content, result := result, routing_path := path2 ++ ["tier1_block"] },
       { store := store2, cache := cache1 })
    else
      let path3 := path2 ++ ["tier2_ml"]
      let ml := scoreContentML content n imgDraw
      let combined := combineScores content tr ml profile
      if ml.needs_human_review ∨ combined.combined_risk_score > 6 / 10 then
        let task := createReviewTask content combined ml
        let result := { combined with decision := ContentStatus.escalated }
        ({ content := content, result := result,
           routing_path := path3 ++ ["human_escalation"], review_task := some task },
         { store := store1, cache := cache1 })
      else
        let final := makeFinalDecision combined
        let result := { combined with decision := final }
        let path4 := path3 ++ ["decision:" ++ final.value]
        let store2 :=
          if final = ContentStatus.approved then
            recordApproval decay nowDay store1 content.user_id
          else if final = ContentStatus.rejected then
            recordViolationsFor decay nowDay store1 content result
          else store1
        ({ content := content, result := result, routing_path := path4 },
         { store := store2, cache := cache1 })

/-- Per-user keyed state, from flink_processor.py `UserMessageState`.
Timestamps are microseconds since an epoch. -/
structure UserMessageState where
  message_count : ℕ := 0
  violation_count : ℕ := 0
  last_message_time : Option ℕ := Option.none
  recent_hashes : List String := []
  velocity : ℚ := 0
deriving DecidableEq, Repr

/-- Flow B terminal record, from models/realtime.py `FlinkDecision`
(fields `_make_decision` fills in). -/
structure FlinkDecision where
  message_id : ℕ
  user_id : ℕ
  channel_id : String
  decision : ContentStatus
  severity : SeverityLevel
  violations : List ViolationType
  spam_score : ℚ
  toxicity_score : ℚ
  user_message_count_1m : ℕ
  user_message_count_5m : ℕ
  is_rate_limited : Bool
  is_repeat_message : Bool
  is_burst_detected : Bool
  processing_time_ms : ℕ
deriving DecidableEq, Repr

/-- Live chat message, from models/realtime.py `ChatMessage` (fields Flow
B reads). -/
structure ChatMessage where
  id : ℕ
  user_id : ℕ
  channel_id : String
  text : String
  tsMicro : ℕ
deriving DecidableEq, Repr

/-- flink_processor.py `_compute_spam_score`: link count, caps share and
velocity heuristics, clamped to 1. -/
def computeSpamScore (text : String) (st : UserMessageState) : ℚ :=
  let s0 : ℚ := 0
  let s1 := if pyCount text "http" > 2 then s0 + 4 / 10 else s0
  let upperCount := (text.toList.filter Char.isUpper).length
  let s2 :=
    if text.length > 0 ∧ (upperCount : ℚ) / (text.length : ℚ) > 7 / 10 then s1 + 3 / 10
    else s1
  let s3 := if st.velocity > 1 then s2 + 3 / 10 else s2
  min 1 s3

/-- flink_processor.py `_compute_toxicity_score`. -/
def computeToxicityScore (text : String) : ℚ :=
  min 1 ((countHits (strLower text) ["hate", "stupid", "idiot", "kill"] : ℚ) * (3 / 10))

/-- flink_processor.py `_check_duplicate`: `md5p16Fn` stands for
`hashlib.md5(text.lower().encode()).hexdigest()[:16]`.  The hash is
appended unconditionally; the result is whether it was already present. -/
def checkDuplicate (md5p16Fn : String → String) (text : String) (st : UserMessageState) :
    Bool × UserMessageState :=
  let h := md5p16Fn (strLower text)
  (st.recent_hashes.contains h,
   { st with recent_hashes := st.recent_hashes ++ [h] })

/-- flink_processor.py `_detect_burst`.  `curMicro` is the message
timestamp in microseconds. -/
def detectBurst (st : UserMessageState) (curMicro : ℕ) : Bool :=
  match st.last_message_time with
  | Option.none => false
  | some lastMicro =>
    decide (((curMicro : ℚ) - (lastMicro : ℚ)) / 1000000 < 1 / 2) && decide (st.velocity > 2)

/-- flink_processor.py `_compute_velocity`: EMA with α = 0.3 of the
instantaneous rate 1/Δt. -/
def computeVelocity (st : UserMessageState) (curMicro : ℕ) : ℚ :=
  match st.last_message_time with
  | Option.none => 0
  | some lastMicro =>
    let dt : ℚ := ((curMicro : ℚ) - (lastMicro : ℚ)) / 1000000
    if dt ≤ 0 then st.velocity
    else (3 / 10) * (1 / dt) + (1 - 3 / 10) * st.velocity

/-- flink_processor.py `_make_decision`: the Flow B decision rules. -/
def makeFlinkDecision (message : ChatMessage) (spamScore toxicityScore : ℚ)
    (isDuplicateB isRateLimited isBursting : Bool) (msgCount1m msgCount5m : ℕ) :
    FlinkDecision :=
  let v0 : List ViolationType := []
  let sev0 : SeverityLevel := .none
  let b0 : Bool := false
  let v1 := if spamScore > 7 / 10 then v0 ++ [.spam] else v0
  let sev1 := if spamScore > 7 / 10 then SeverityLevel.medium else sev0
  let b1 := if spamScore > 7 / 10 then true else b0
  let v2 := if toxicityScore > 8 / 10 then v1 ++ [.harassment] else v1
  let sev2 := if toxicityScore > 8 / 10 then SeverityLevel.pymax sev1 .high else sev1
  let b2 := if toxicityScore > 8 / 10 then true else b1
  let v3 := if isDuplicateB then v2 ++ [.spam] else v2
  let sev3 := if isDuplicateB then SeverityLevel.pymax sev2 .low else sev2
  let b3 := if isRateLimited then true else b2
  { message_id := message.id
    user_id := message.user_id
    channel_id := message.channel_id
    decision := if b3 then .rejected else .approved
    severity := sev3
    violations := v3
    spam_score := spamScore
    toxicity_score := toxicityScore
    user_message_count_1m := msgCount1m
    user_message_count_5m := msgCount5m
    is_rate_limited := isRateLimited
    is_repeat_message := isDuplicateB
    is_burst_detected := isBursting
    processing_time_ms := 0 }

/-- flink_processor.py `process_message`, steps 5–7: feature computation
over the pre-read user state, decision, and user-state write-back.  The
window counts `msgCount1m` / `msgCount5m` are the backend counters the
source reads in step 4 (`is_rate_limited = msg_count_1m > 10`).  Note the
source sets `last_message_time` to the current timestamp before calling
`_compute_velocity`, so the Δt there is 0 and the velocity write is the
unchanged previous velocity; embedded as written. -/
def processMessageDecision (md5p16Fn : String → String) (message : ChatMessage)
    (st : UserMessageState) (msgCount1m msgCount5m : ℕ) :
    FlinkDecision × UserMessageState :=
  let spamScore := computeSpamScore message.text st
  let toxicityScore := computeToxicityScore message.text
  let dup := checkDuplicate md5p16Fn message.text st
  let isRateLimited := msgCount1m > 10
  let isBursting := detectBurst st message.tsMicro
  let st1 := { dup.2 with
    message_count := dup.2.message_count + 1
    last_message_time := some message.tsMicro }
  let st2 := { st1 with velocity := computeVelocity st1 message.tsMicro }
  (makeFlinkDecision message spamScore toxicityScore dup.1 isRateLimited isBursting
     msgCount1m msgCount5m,
   st2)

/-- A Python `datetime` as the tumbling-window assigner manipulates it:
minutes since an epoch (subsuming all coarser fields), the second within
the minute, and the microsecond.  The source's
`timestamp.replace(second=..., microsecond=0)` touches exactly these. -/
structure PyTimestamp where
  minuteIdx : ℕ
  second : ℕ
  micro : ℕ
deriving DecidableEq, Repr

/-- A timestamp as microseconds since the epoch. -/
def PyTimestamp.toMicro (t : PyTimestamp) : ℕ :=
  60000000 * t.minuteIdx + 1000000 * t.second + t.micro

/-- flink_processor.py `TumblingWindowAssigner.assign_windows` for window
size `w` seconds: the window start is the timestamp with
`second := (second // window_size.seconds) * window_size.seconds` and
`microsecond := 0`; the end is start plus the window size.  Windows are
(startMicro, endMicro) pairs in microseconds.  `timedelta(seconds=w).seconds`
is `w % 86400`. -/
def tumblingAssignWindows (w : ℕ) (t : PyTimestamp) : List (ℕ × ℕ) :=
  let wsecs := w % 86400
  let startMicro := 60000000 * t.minuteIdx + 1000000 * ((t.second / wsecs) * wsecs)
  [(startMicro, startMicro + 1000000 * w)]

/-- The tumbling-window start the specification states:
`⌊t/w⌋·w`, in microseconds. -/
def specTumblingStartMicro (w : ℕ) (t : PyTimestamp) : ℕ :=
  (t.toMicro / (1000000 * w)) * (1000000 * w)

/-
  Path lemmas for `moderateContent`: the value returned on each of the
  four routes, under the branch conditions.
-/

theorem moderateContent_fastPath (ck : TriageCheckers) (decay : ℕ → ℚ) (nowDay : ℕ)
    (st : PipelineState) (content : Content) (n : MLNoise) (img : ImageAnalysis)
    (hfa : canFastApprove (getRiskProfile decay nowDay st.store content.user_id).1 content = true) :
    (moderateContent ck decay nowDay st content n img).1 =
      { content := content
        result := createFastApproval content
        routing_path :=
          ["risk_assessment:" ++ (getRiskProfile decay nowDay st.store content.user_id).1.risk_level.value,
           "fast_approve"] } := by
  unfold moderateContent
  simp [hfa]

theorem moderateContent_blockPath (ck : TriageCheckers) (decay : ℕ → ℚ) (nowDay : ℕ)
    (st : PipelineState) (content : Content) (n : MLNoise) (img : ImageAnalysis)
    (hfa : canFastApprove (getRiskProfile decay nowDay st.store content.user_id).1 content = false)
    (hblock : (triage ck st.cache content).1.should_block = true) :
    (moderateContent ck decay nowDay st content n img).1 =
      { content := content
        result := createModerationResult content (triage ck st.cache content).1
        routing_path :=
          ["risk_assessment:" ++ (getRiskProfile decay nowDay st.store content.user_id).1.risk_level.value,
           "tier1_triage", "tier1_block"] } := by
  unfold moderateContent
  simp [hfa, hblock]

theorem moderateContent_escalatePath (ck : TriageCheckers) (decay : ℕ → ℚ) (nowDay : ℕ)
    (st : PipelineState) (content : Content) (n : MLNoise) (img : ImageAnalysis)
    (hfa : canFastApprove (getRiskProfile decay nowDay st.store content.user_id).1 content = false)
    (hblock : (triage ck st.cache content).1.should_block = false)
    (hesc : (scoreContentML content n img).needs_human_review = true ∨
            (combineScores content (triage ck st.cache content).1 (scoreContentML content n img)
              (getRiskProfile decay nowDay st.store content.user_id).1).combined_risk_score > 6 / 10) :
    (moderateContent ck decay nowDay st content n img).1 =
      { content := content
        result :=
          { combineScores content (triage ck st.cache content).1 (scoreContentML content n img)
              (getRiskProfile decay nowDay st.store content.user_id).1 with
            decision := ContentStatus.escalated }
        routing_path :=
          ["risk_assessment:" ++ (getRiskProfile decay nowDay st.store content.user_id).1.risk_level.value,
           "tier1_triage", "tier2_ml", "human_escalation"]
        review_task := some (createReviewTask content
          (combineScores content (triage ck st.cache content).1 (scoreContentML content n img)
            (getRiskProfile decay nowDay st.store content.user_id).1)
          (scoreContentML content n img)) } := by
  unfold moderateContent
  simp only [hfa, Bool.false_eq_true, if_false, hblock, if_true]
  rw [if_pos hesc]
  rfl

theorem moderateContent_finalPath (ck : TriageCheckers) (decay : ℕ → ℚ) (nowDay : ℕ)
    (st : PipelineState) (content : Content) (n : MLNoise) (img : ImageAnalysis)
    (hfa : canFastApprove (getRiskProfile decay nowDay st.store content.user_id).1 content = false)
    (hblock : (triage ck st.cache content).1.should_block = false)
    (hesc : ¬ ((scoreContentML content n img).needs_human_review = true ∨
            (combineScores content (triage ck st.cache content).1 (scoreContentML content n img)
              (getRiskProfile decay nowDay st.store content.user_id).1).combined_risk_score > 6 / 10)) :
    (moderateContent ck decay nowDay st content n img).1 =
      { content := content
        result :=
          { combineScores content (triage ck st.cache content).1 (scoreContentML content n img)
              (getRiskProfile decay nowDay st.store content.user_id).1 with
            decision := makeFinalDecision
              (combineScores content (triage ck st.cache content).1 (scoreContentML content n img)
                (getRiskProfile decay nowDay st.store content.user_id).1) }
        routing_path :=
          ["risk_assessment:" ++ (getRiskProfile decay nowDay st.store content.user_id).1.risk_level.value,
           "tier1_triage", "tier2_ml",
           "decision:" ++ (makeFinalDecision
              (combineScores content (triage ck st.cache content).1 (scoreContentML content n img)
                (getRiskProfile decay nowDay st.store content.user_id).1)).value] } := by
  unfold moderateContent
  simp only [hfa, Bool.false_eq_true, if_false, hblock, if_true]
  rw [if_neg hesc]
  rfl

/-- No outcome of the final-decision ladder is `escalated`. -/
theorem makeFinalDecision_ne_escalated (r : ModerationResult) :
    makeFinalDecision r ≠ ContentStatus.escalated := by
  unfold makeFinalDecision
  split_ifs <;> decide

/-- Ladder of the specification's final-decision rules (C2), stated from
the spec text for comparison with `makeFinalDecision`. -/
def specFinalDecision (sev : SeverityLevel) (combined : ℚ) : ContentStatus :=
  if sev = .critical then .rejected
  else if sev = .high ∧ combined > 7 / 10 then .rejected
  else if sev = .medium then .quarantined
  else if combined < 3 / 10 then .approved
  else .approved

/-- Claim C2: the final decision follows the spec's top-down ladder
(critical → rejected; high ∧ combined > 0.7 → rejected; medium →
quarantined; combined < 0.3 → approved; otherwise approved); in
particular severity high with combined ≤ 0.7, and severity ≤ low, are
approved. -/
theorem C2_final_decision_ladder (r : ModerationResult) :
    makeFinalDecision r = specFinalDecision r.severity r.combined_risk_score ∧
    (r.severity = .high → r.combined_risk_score ≤ 7 / 10 →
      makeFinalDecision r = .approved) ∧
    (r.severity.val ≤ SeverityLevel.low.val → makeFinalDecision r = .approved) := by
  refine ⟨rfl, ?_, ?_⟩
  · intro h1 h2
    unfold makeFinalDecision
    rw [if_neg (by simp [h1]), if_neg (by rintro ⟨-, hb⟩; linarith), if_neg (by simp [h1])]
    split_ifs <;> rfl
  · intro h
    unfold makeFinalDecision
    rw [if_neg, if_neg, if_neg]
    · split_ifs <;> rfl
    · intro hc; rw [hc] at h; exact absurd h (by decide)
    · rintro ⟨hc, -⟩; rw [hc] at h; exact absurd h (by decide)
    · intro hc; rw [hc] at h; exact absurd h (by decide)

/-- Concrete result used by the C2 witness. -/
def mrC2 : ModerationResult :=
  { content_id := 0, decision := .pending, decision_source := .tier2_ml,
    severity := .high, combined_risk_score := 1 / 2 }

/-- Witness for C2 at a concrete result (severity high, combined 0.5). -/
theorem C2_final_decision_ladder_witness :
    makeFinalDecision mrC2 = .approved :=
  (C2_final_decision_ladder mrC2).2.1 rfl (by norm_num [mrC2])

/-- Ladder of the specification's risk classification (C4), stated from
the spec text for comparison with `calculateRiskLevel`. -/
def specRiskLadder (s : ℚ) (v : ℕ) : UserRiskLevel :=
  if s ≥ 80 ∧ v = 0 then .trusted
  else if s ≥ 50 ∧ v ≤ 1 then .normal
  else if s ≥ 30 ∨ v ≤ 3 then .watch
  else if s ≥ 10 then .restricted
  else .banned

/-- Claim C4: risk classification is the spec's first-matching-rule ladder
over (overall score, 30-day violation count); in particular a score below
10 with at most 3 recent violations classifies as watch, not banned. -/
theorem C4_risk_classification (r : ReputationScore) :
    r.calculateRiskLevel = specRiskLadder r.overall_score r.violations_last_30_days ∧
    (r.overall_score < 10 → r.violations_last_30_days ≤ 3 →
      r.calculateRiskLevel = .watch) := by
  constructor
  · rfl
  · intro h1 h2
    unfold ReputationScore.calculateRiskLevel
    rw [if_neg (by rintro ⟨a, -⟩; linarith), if_neg (by rintro ⟨a, -⟩; linarith),
        if_pos (Or.inr h2)]

/-- Concrete reputation used by the C4 witness. -/
def repC4 : ReputationScore := { overall_score := 5, violations_last_30_days := 2 }

/-- Witness for C4 at a concrete reputation (score 5, two recent
violations): classified watch. -/
theorem C4_risk_classification_witness :
    repC4.calculateRiskLevel = .watch :=
  (C4_risk_classification repC4).2 (by norm_num [repC4]) (by norm_num [repC4])

/-- Claim C10: for a user id absent from the reputation store,
`get_risk_profile` returns the default profile (risk level normal, risk
score 0.5) without touching the store, and `record_violation` /
`record_approval` leave the store unchanged. -/
theorem C10_unknown_user_defaults (decay : ℕ → ℚ) (nowDay : ℕ) (store : UserStore)
    (uid : ℕ) (vt : ViolationType) (sev : ℕ) (cid : ℕ) (act : String)
    (h : lookupUser store uid = Option.none) :
    (getRiskProfile decay nowDay store uid).1 =
      { user_id := uid, risk_level := .normal, risk_score := 1 / 2 } ∧
    (getRiskProfile decay nowDay store uid).2 = store ∧
    recordViolation decay nowDay store uid vt sev cid act = store ∧
    recordApproval decay nowDay store uid = store := by
  unfold getRiskProfile recordViolation recordApproval
  rw [h]
  exact ⟨rfl, rfl, rfl, rfl⟩

/-- Witness for C10: the empty store at user id 0. -/
theorem C10_unknown_user_defaults_witness :
    (getRiskProfile (fun _ => 1) 0 [] 0).1 =
      { user_id := 0, risk_level := .normal, risk_score := 1 / 2 } ∧
    (getRiskProfile (fun _ => 1) 0 [] 0).2 = [] ∧
    recordViolation (fun _ => 1) 0 [] 0 .spam 2 5 "content_rejected" = [] ∧
    recordApproval (fun _ => 1) 0 [] 0 = [] :=
  C10_unknown_user_defaults (fun _ => 1) 0 [] 0 .spam 2 5 "content_rejected" rfl

/-- Claim C9 (code bug): for window size 7 s and the timestamp one minute
and one second past the epoch (t = 61 s), the assigner returns the window
starting at 60 s, while ⌊61/7⌋·7 = 56; moreover the timestamp 59 s is
assigned the window starting at 56 s, so the two emitted windows
(56 s, 63 s) and (60 s, 67 s) overlap, contradicting the assigner's
"non-overlapping fixed-size windows" docstring.  All values are in
microseconds. -/
theorem C9_tumbling_start_divergence :
    tumblingAssignWindows 7 { minuteIdx := 1, second := 1, micro := 0 } =
      [(60000000, 67000000)] ∧
    specTumblingStartMicro 7 { minuteIdx := 1, second := 1, micro := 0 } = 56000000 ∧
    (60000000 : ℕ) ≠ 56000000 ∧
    tumblingAssignWindows 7 { minuteIdx := 0, second := 59, micro := 0 } =
      [(56000000, 63000000)] ∧
    (56000000 : ℕ) < 63000000 ∧ (60000000 : ℕ) < 63000000 := by
  refine ⟨rfl, rfl, by decide, rfl, by decide, by decide⟩

/-- The parts of claim C9 that do hold of the code: exactly one window is
returned, its width is the window size, and the timestamp lies inside the
half-open window (for a positive window size below a day and a valid
datetime field range). -/
theorem tumblingAssignWindows_contains (w : ℕ) (t : PyTimestamp)
    (hw0 : 0 < w) (hw : w < 86400) (hs : t.second < 60) (hm : t.micro < 1000000) :
    ∃ s e, tumblingAssignWindows w t = [(s, e)] ∧ e = s + 1000000 * w ∧
      s ≤ t.toMicro ∧ t.toMicro < e := by
  simp only [tumblingAssignWindows, PyTimestamp.toMicro, Nat.mod_eq_of_lt hw]
  have h3 : t.second / w * w + t.second % w = t.second := by
    rw [Nat.mul_comm]
    exact Nat.div_add_mod t.second w
  have h4 : t.second % w < w := Nat.mod_lt _ hw0
  refine ⟨_, _, rfl, rfl, ?_, ?_⟩ <;>
  · revert h3 h4
    generalize t.second / w * w = bigX
    generalize t.second % w = smallR
    intro h3 h4
    omega

/-- Updating a present key makes lookup return the new value. -/
theorem lookupUser_updateUser (store : UserStore) (uid : ℕ) (w : User)
    (h : (lookupUser store uid).isSome) :
    lookupUser (updateUser store uid w) uid = some w := by
  induction store with
  | nil => simp [lookupUser, List.lookup] at h
  | cons p rest ih =>
    rcases p with ⟨k, v⟩
    simp only [updateUser]
    by_cases hk : k = uid
    · rw [if_pos hk]
      subst hk
      simp [lookupUser, List.lookup]
    · rw [if_neg hk]
      have hlk : (uid == k) = false := beq_false_of_ne (fun hh => hk hh.symm)
      simp only [lookupUser, List.lookup, hlk] at h ⊢
      exact ih h

/-- The right argument is a lower bound of the Python severity max. -/
theorem SeverityLevel.val_le_pymax_right (a b : SeverityLevel) :
    b.val ≤ (SeverityLevel.pymax a b).val := by
  unfold SeverityLevel.pymax
  split_ifs with h
  · exact h
  · exact le_refl _

/-- The left argument is a lower bound of the Python severity max. -/
theorem SeverityLevel.val_le_pymax_left (a b : SeverityLevel) :
    a.val ≤ (SeverityLevel.pymax a b).val := by
  unfold SeverityLevel.pymax
  split_ifs with h
  · exact le_refl _
  · exact le_of_not_le h

/-- No `risk_assessment:` routing tag is the `tier2_ml` tag. -/
theorem riskTag_ne_tier2 (rl : UserRiskLevel) :
    "risk_assessment:" ++ rl.value ≠ "tier2_ml" := by
  cases rl <;> decide

/-
  Concrete instances used by witnesses and counterexamples.  The triage
  checkers `ckEx` behave as the source's compiled regexes do on every text
  these scenarios feed them: of all the texts involved, only "bomb threat"
  matches a critical pattern (the regex
  `(?i)\b(?:kill\s+(?:you|myself|yourself)|bomb\s+threat)\b`), and none
  match spam/profanity/blocked-domain patterns.
-/

def ckEx : TriageCheckers :=
  { checkCritical := fun t => if hasSub t "bomb threat" then ["critical_pattern"] else []
    checkBlockedDomains := fun _ => false
    checkSpam := fun _ _ => []
    checkProfanity := fun _ => []
    md5hexFn := fun t => t }

/-- A user whose recomputed reputation is 100, hence trusted and
fast-track approved: perfect approval history, year-old account, full
community standing, no violations. -/
def trustedUserEx : User :=
  { id := 7, username := "alice"
    reputation := { overall_score := 90, community_standing := 100,
                    total_posts := 100, approved_posts := 100 }
    created_atDay := 0 }

/-- Critical-text content posted by the trusted user. -/
def contentC1 : Content := { id := 1, user_id := 7, text_content := some "bomb threat" }

/-- Critical-text content posted by an unknown (hence non-fast-track)
user. -/
def contentC1w : Content := { id := 1, user_id := 42, text_content := some "bomb threat" }

/-- Claim C1, amended: a critical-pattern hit makes triage block with
severity critical, confidence 0.99 and only `threat` violations; and,
provided the content is not fast-approved, `moderate_content` rejects it
at tier 1 (decision source triage) without reaching the ML tier. -/
theorem C1_critical_block_unless_fast_approved (ck : TriageCheckers) (decay : ℕ → ℚ)
    (nowDay : ℕ) (st : PipelineState) (content : Content) (n : MLNoise) (img : ImageAnalysis)
    (hcrit : ck.checkCritical (content.text_content.getD "") ≠ [])
    (hfa : canFastApprove (getRiskProfile decay nowDay st.store content.user_id).1 content = false) :
    (triage ck st.cache content).1.should_block = true ∧
    (triage ck st.cache content).1.severity = .critical ∧
    (triage ck st.cache content).1.confidence = 99 / 100 ∧
    (triage ck st.cache content).1.violations ≠ [] ∧
    (∀ v ∈ (triage ck st.cache content).1.violations, v = ViolationType.threat) ∧
    (moderateContent ck decay nowDay st content n img).1.result.decision = .rejected ∧
    (moderateContent ck decay nowDay st content n img).1.result.decision_source = .tier1_triage ∧
    (moderateContent ck decay nowDay st content n img).1.result.severity = .critical ∧
    (moderateContent ck decay nowDay st content n img).1.result.combined_risk_score = 99 / 100 ∧
    "tier2_ml" ∉ (moderateContent ck decay nowDay st content n img).1.routing_path ∧
    (moderateContent ck decay nowDay st content n img).1.review_task = Option.none := by
  have htr : (triage ck st.cache content).1 =
      { should_block := true
        violations := (ck.checkCritical (content.text_content.getD "")).map
          (fun _ => ViolationType.threat)
        severity := .critical
        confidence := 99 / 100
        matched_patterns := ck.checkCritical (content.text_content.getD "")
        processing_time_ms := 0 } := by
    unfold triage
    rw [if_pos hcrit]
  have hblock : (triage ck st.cache content).1.should_block = true := by rw [htr]
  have hrun := moderateContent_blockPath ck decay nowDay st content n img hfa hblock
  refine ⟨hblock, by rw [htr], by rw [htr], ?_, ?_, ?_, ?_, ?_, ?_, ?_, ?_⟩
  · rw [htr]
    simpa using hcrit
  · rw [htr]
    intro v hv
    simp only [List.mem_map] at hv
    obtain ⟨-, -, hveq⟩ := hv
    exact hveq.symm
  · rw [hrun]
    simp [createModerationResult, htr]
  · rw [hrun]
    simp [createModerationResult]
  · rw [hrun]
    simp [createModerationResult, htr]
  · rw [hrun]
    simp [createModerationResult, htr]
  · rw [hrun]
    simp only [List.mem_cons, List.not_mem_nil]
    push_neg
    exact ⟨fun hh => riskTag_ne_tier2 _ hh.symm, by decide, by decide, fun hh => hh⟩
  · rw [hrun]

/-- Witness for the amended C1: an unknown user posting "bomb threat" is
rejected at triage. -/
theorem C1_critical_block_witness :
    (moderateContent ckEx (fun _ => 1) 0 { store := [], cache := [] } contentC1w {} {}).1.result.decision = .rejected ∧
    (moderateContent ckEx (fun _ => 1) 0 { store := [], cache := [] } contentC1w {} {}).1.result.decision_source = .tier1_triage ∧
    "tier2_ml" ∉ (moderateContent ckEx (fun _ => 1) 0 { store := [], cache := [] } contentC1w {} {}).1.routing_path :=
  let h := C1_critical_block_unless_fast_approved ckEx (fun _ => 1) 0
    { store := [], cache := [] } contentC1w {} {} (by decide) (by decide)
  ⟨h.2.2.2.2.2.1, h.2.2.2.2.2.2.1, h.2.2.2.2.2.2.2.2.2.1⟩

/-- Counterexample to C1 as stated: a trusted, fast-track-approved user
posting the critical text "bomb threat" is fast-approved before triage
ever runs, so the content is approved, not rejected at tier 1. -/
theorem C1_counterexample :
    ckEx.checkCritical (contentC1.text_content.getD "") ≠ [] ∧
    (moderateContent ckEx (fun _ => 1) 1000 { store := [(7, trustedUserEx)], cache := [] }
      contentC1 {} {}).1.result.decision = ContentStatus.approved ∧
    ContentStatus.approved ≠ ContentStatus.rejected ∧
    "tier1_triage" ∉ (moderateContent ckEx (fun _ => 1) 1000
      { store := [(7, trustedUserEx)], cache := [] } contentC1 {} {}).1.routing_path := by
  have hrl : (getRiskProfile (fun _ => 1) 1000 [(7, trustedUserEx)] 7).1.risk_level =
      UserRiskLevel.trusted := by
    norm_num [getRiskProfile, lookupUser, List.lookup, trustedUserEx, calculateReputationScore,
      calcViolationImpact, ReputationScore.calculateRiskLevel]
  have hfa : canFastApprove (getRiskProfile (fun _ => 1) 1000 [(7, trustedUserEx)] 7).1
      contentC1 = true := by
    norm_num [canFastApprove, getRiskProfile, lookupUser, List.lookup, trustedUserEx, contentC1,
      calculateReputationScore, calcViolationImpact, ReputationScore.calculateRiskLevel,
      getRateLimitHour, optStrTruthy]
  have hrun := moderateContent_fastPath ckEx (fun _ => 1) 1000
    { store := [(7, trustedUserEx)], cache := [] } contentC1 {} {} hfa
  refine ⟨by decide, ?_, by decide, ?_⟩
  · rw [hrun]
    rfl
  · rw [hrun]
    simp only [hrl]
    decide

/-- Claim C6, amended: a duplicate message always contributes a `spam`
violation and severity at least low, but duplication alone never blocks
(the recent-hash count is never consulted); the emitted decision is
rejected exactly when the spam score exceeds 0.7, the toxicity score
exceeds 0.8, or the 1-minute count exceeds 10. -/
theorem C6_duplicate_flags_but_does_not_reject (md5p16Fn : String → String)
    (msg : ChatMessage) (st : UserMessageState) (c1 c5 : ℕ)
    (hdup : (checkDuplicate md5p16Fn msg.text st).1 = true) :
    ViolationType.spam ∈ (processMessageDecision md5p16Fn msg st c1 c5).1.violations ∧
    SeverityLevel.low.val ≤ (processMessageDecision md5p16Fn msg st c1 c5).1.severity.val ∧
    ((processMessageDecision md5p16Fn msg st c1 c5).1.decision = .rejected ↔
      (computeSpamScore msg.text st > 7 / 10 ∨ computeToxicityScore msg.text > 8 / 10 ∨
        c1 > 10)) := by
  unfold processMessageDecision makeFlinkDecision
  simp only [hdup, if_true]
  refine ⟨?_, ?_, ?_⟩
  · simp
  · exact SeverityLevel.val_le_pymax_right _ _
  · by_cases hs : computeSpamScore msg.text st > 7 / 10 <;>
      by_cases ht : computeToxicityScore msg.text > 8 / 10 <;>
      by_cases hr : c1 > 10 <;>
      simp [hs, ht, hr]

/-- Message and user state for the C6 scenario: the (modelled) 16-char
hash of the lowercased text is already present and the stored hash list
has 4 > 3 entries; the text triggers no spam or toxicity feature and the
1-minute count is 1. -/
def msgC6 : ChatMessage := { id := 1, user_id := 1, channel_id := "c", text := "dup", tsMicro := 0 }

/-- Recent-hash state holding four entries including the hash of
`msgC6`. -/
def stC6 : UserMessageState := { recent_hashes := ["dup", "a", "b", "c"] }

/-- Witness for the amended C6 at the concrete duplicate message. -/
theorem C6_duplicate_flags_witness :
    ViolationType.spam ∈ (processMessageDecision (fun s => s) msgC6 stC6 1 1).1.violations ∧
    SeverityLevel.low.val ≤ (processMessageDecision (fun s => s) msgC6 stC6 1 1).1.severity.val :=
  let h := C6_duplicate_flags_but_does_not_reject (fun s => s) msgC6 stC6 1 1 (by decide)
  ⟨h.1, h.2.1⟩

/-- Counterexample to C6 as stated: a duplicate message (hash present,
4 > 3 stored hashes) with no spam/toxicity signal and no rate limit is
approved, not rejected. -/
theorem C6_counterexample :
    (checkDuplicate (fun s => s) msgC6.text stC6).1 = true ∧
    stC6.recent_hashes.length > 3 ∧
    (processMessageDecision (fun s => s) msgC6 stC6 1 1).1.decision = ContentStatus.approved ∧
    ContentStatus.approved ≠ ContentStatus.rejected := by
  have hp : pyCount "dup" "http" = 0 := by decide
  have hcap : (List.filter Char.isUpper ['d', 'u', 'p']).length = 0 := by decide
  have hlen : ("dup" : String).length = 3 := by decide
  have htox : countHits (strLower "dup") ["hate", "stupid", "idiot", "kill"] = 0 := by decide
  refine ⟨by decide, by decide, ?_, by decide⟩
  norm_num [processMessageDecision, makeFlinkDecision, computeSpamScore, computeToxicityScore,
    checkDuplicate, detectBurst, computeVelocity, msgC6, stC6, hp, hcap, hlen, htox]

/-- Claim C7, amended: `record_approval` increments both counters by one,
but the clamped +0.1 bump to the overall score is immediately overwritten
by a full reputation recomputation; the resulting overall score is the
weighted reputation formula, which can be smaller than the pre-call
score. -/
theorem C7_record_approval_recompute (decay : ℕ → ℚ) (nowDay : ℕ) (store : UserStore)
    (uid : ℕ) (u : User) (hu : lookupUser store uid = some u) :
    ∃ u2 : User,
      lookupUser (recordApproval decay nowDay store uid) uid = some u2 ∧
      u2.reputation.total_posts = u.reputation.total_posts + 1 ∧
      u2.reputation.approved_posts = u.reputation.approved_posts + 1 ∧
      u2.reputation.overall_score =
        ((u.reputation.approved_posts : ℚ) + 1) / ((u.reputation.total_posts : ℚ) + 1) *
            100 * (3 / 10) +
          min 100 (((nowDay - u.created_atDay : ℕ) : ℚ) / (365 / 100)) * (2 / 10) +
          (100 - calcViolationImpact decay nowDay u.reputation.violation_history) * (3 / 10) +
          u.reputation.community_standing * (2 / 10) := by
  unfold recordApproval
  rw [hu]
  refine ⟨_, lookupUser_updateUser store uid _ (by rw [hu]; rfl), ?_, ?_, ?_⟩
  · simp [calculateReputationScore]
  · simp [calculateReputationScore]
  · simp only [calculateReputationScore]
    rw [if_pos (Nat.succ_pos _)]
    push_cast
    ring

/-- User at overall score 100 with a fresh account and two neutral
counters, for the C7 counterexample and witness. -/
def userC7 : User :=
  { id := 3, username := "bob"
    reputation := { overall_score := 100, community_standing := 50 } }

/-- Witness for the amended C7 at the concrete user. -/
theorem C7_record_approval_witness :
    ∃ u2 : User,
      lookupUser (recordApproval (fun _ => 1) 0 [(3, userC7)] 3) 3 = some u2 ∧
      u2.reputation.total_posts = userC7.reputation.total_posts + 1 ∧
      u2.reputation.approved_posts = userC7.reputation.approved_posts + 1 ∧
      u2.reputation.overall_score =
        ((userC7.reputation.approved_posts : ℚ) + 1) / ((userC7.reputation.total_posts : ℚ) + 1) *
            100 * (3 / 10) +
          min 100 (((0 - userC7.created_atDay : ℕ) : ℚ) / (365 / 100)) * (2 / 10) +
          (100 - calcViolationImpact (fun _ => 1) 0 userC7.reputation.violation_history) * (3 / 10) +
          userC7.reputation.community_standing * (2 / 10) :=
  C7_record_approval_recompute (fun _ => 1) 0 [(3, userC7)] 3 userC7 rfl

/-- Counterexample to C7 as stated: for the stored user at overall score
100, `record_approval` does increment both counters, but the final
overall score is 70, not `min(100, 100 + 0.1) = 100`, and in particular
it is lower than before the call. -/
theorem C7_counterexample :
    userC7.reputation.overall_score = 100 ∧
    min 100 (userC7.reputation.overall_score + 1 / 10) = 100 ∧
    (lookupUser (recordApproval (fun _ => 1) 0 [(3, userC7)] 3) 3).map
      (fun u => u.reputation.overall_score) = some 70 ∧
    (lookupUser (recordApproval (fun _ => 1) 0 [(3, userC7)] 3) 3).map
      (fun u => (u.reputation.total_posts, u.reputation.approved_posts)) = some (1, 1) ∧
    (70 : ℚ) ≠ 100 ∧ (70 : ℚ) < 100 := by
  refine ⟨rfl, by norm_num [userC7], ?_, ?_, by norm_num, by norm_num⟩
  · norm_num [recordApproval, lookupUser, updateUser, List.lookup, userC7,
      calculateReputationScore, calcViolationImpact]
  · norm_num [recordApproval, lookupUser, updateUser, List.lookup, userC7,
      calculateReputationScore, calcViolationImpact]

/-- Claim C8, amended: the engine is a deterministic function of the
content, the reputation snapshot, the duplicate cache and the sampled
scorer noise; two runs with identical inputs including the noise draw
yield the same decision, source, severity and violation set.  (With
different noise draws the outputs can differ; see the counterexample.) -/
theorem C8_deterministic_modulo_noise (ck : TriageCheckers) (decay : ℕ → ℚ) (nowDay : ℕ)
    (st : PipelineState) (content : Content) (n : MLNoise) (img : ImageAnalysis)
    (r1 r2 : ModerationPipelineResult)
    (h1 : r1 = (moderateContent ck decay nowDay st content n img).1)
    (h2 : r2 = (moderateContent ck decay nowDay st content n img).1) :
    r1.result.decision = r2.result.decision ∧
    r1.result.decision_source = r2.result.decision_source ∧
    r1.result.severity = r2.result.severity ∧
    r1.result.violations = r2.result.violations := by
  subst h1
  subst h2
  exact ⟨rfl, rfl, rfl, rfl⟩

/-- Content for the C8 scenario: clean for triage, toxicity feature score
0.6 for the simulated scorer. -/
def contentC8 : Content := { id := 2, user_id := 99, text_content := some "hate stupid idiot" }

/-- A legal noise draw pushing toxicity from 0.6 to 0.75. -/
def noiseC8 : MLNoise := { ntox := 3 / 20 }

/-- Witness for the amended C8 at the concrete content. -/
theorem C8_deterministic_witness :
    (moderateContent ckEx (fun _ => 1) 0 { store := [], cache := [] } contentC8 {} {}).1.result.decision =
      (moderateContent ckEx (fun _ => 1) 0 { store := [], cache := [] } contentC8 {} {}).1.result.decision :=
  (C8_deterministic_modulo_noise ckEx (fun _ => 1) 0 { store := [], cache := [] } contentC8 {} {}
    _ _ rfl rfl).1

/-- Counterexample to C8 as stated: two runs on the same content with the
same (empty) reputation store and duplicate cache, differing only in the
scorer's legal uniform-noise draw, produce different decisions
(approved vs escalated), severities, and violation sets — the reference
scorer is randomized, not deterministic. -/
theorem C8_counterexample :
    MLNoise.Valid {} ∧ MLNoise.Valid noiseC8 ∧
    (moderateContent ckEx (fun _ => 1) 0 { store := [], cache := [] } contentC8 {} {}).1.result.decision =
      ContentStatus.approved ∧
    (moderateContent ckEx (fun _ => 1) 0 { store := [], cache := [] } contentC8 noiseC8 {}).1.result.decision =
      ContentStatus.escalated ∧
    (moderateContent ckEx (fun _ => 1) 0 { store := [], cache := [] } contentC8 {} {}).1.result.severity =
      SeverityLevel.none ∧
    (moderateContent ckEx (fun _ => 1) 0 { store := [], cache := [] } contentC8 noiseC8 {}).1.result.severity =
      SeverityLevel.medium ∧
    (moderateContent ckEx (fun _ => 1) 0 { store := [], cache := [] } contentC8 {} {}).1.result.violations = [] ∧
    (moderateContent ckEx (fun _ => 1) 0 { store := [], cache := [] } contentC8 noiseC8 {}).1.result.violations =
      [ViolationType.harassment] ∧
    ContentStatus.approved ≠ ContentStatus.escalated := by
  have h1 : countHits (strLower "hate stupid idiot") ["hate", "stupid", "idiot", "moron", "loser"] = 3 := by decide
  have h2 : countHits (strLower "hate stupid idiot") ["buy now", "click here", "free", "$$$", "limited time"] = 0 := by decide
  have h4 : countHits (strLower "hate stupid idiot") ["you should", "you are a", "people like you"] = 0 := by decide
  have h5 : countHits (strLower "hate stupid idiot") ["kill", "hurt", "attack", "fight", "destroy"] = 0 := by decide
  have h6 : countHits (strLower "hate stupid idiot") ["good", "great", "love", "happy", "wonderful"] = 0 := by decide
  have h7 : countHits (strLower "hate stupid idiot") ["bad", "hate", "sad", "terrible", "awful"] = 1 := by decide
  have h8 : ("hate stupid idiot" : String).length = 17 := by decide
  have h9 : hasSub "hate stupid idiot" "bomb threat" = false := by decide
  have h0 : ¬ (("hate stupid idiot" : String) = "") := by decide
  refine ⟨by norm_num [MLNoise.Valid], by norm_num [MLNoise.Valid, noiseC8], ?_, ?_, ?_, ?_, ?_, ?_, by decide⟩
  all_goals
    norm_num [moderateContent, getRiskProfile, lookupUser, List.lookup, canFastApprove,
      optStrTruthy, triage, isDuplicate, createModerationResult, scoreContentML, scoreTextML,
      simulateToxicity, simulateSpam, simulateHateSpeech, simulateHarassment, simulateViolence,
      simulateAdult, simulateSentiment, detectViolationsML, needsHumanReviewML, combineScores,
      makeFinalDecision, SeverityLevel.pymax, SeverityLevel.val, ckEx, contentC8, noiseC8,
      h1, h2, h4, h5, h6, h7, h8, h9, h0, abs_lt] <;>
    decide

/-- Claim C3: for content that is not fast-approved and passes triage
without blocking, the run escalates (decision `escalated`, review task
constructed) iff the ML result flags human review or the combined risk
score strictly exceeds 0.6; at exactly 0.6 with the flag false it does
not escalate. -/
theorem C3_escalation_iff (ck : TriageCheckers) (decay : ℕ → ℚ) (nowDay : ℕ)
    (st : PipelineState) (content : Content) (n : MLNoise) (img : ImageAnalysis)
    (hfa : canFastApprove (getRiskProfile decay nowDay st.store content.user_id).1 content = false)
    (hblock : (triage ck st.cache content).1.should_block = false) :
    (((moderateContent ck decay nowDay st content n img).1.result.decision = ContentStatus.escalated ∧
      (moderateContent ck decay nowDay st content n img).1.review_task.isSome = true) ↔
      ((scoreContentML content n img).needs_human_review = true ∨
        (combineScores content (triage ck st.cache content).1 (scoreContentML content n img)
          (getRiskProfile decay nowDay st.store content.user_id).1).combined_risk_score > 6 / 10)) ∧
    ((combineScores content (triage ck st.cache content).1 (scoreContentML content n img)
        (getRiskProfile decay nowDay st.store content.user_id).1).combined_risk_score = 6 / 10 →
      (scoreContentML content n img).needs_human_review = false →
      (moderateContent ck decay nowDay st content n img).1.result.decision ≠
        ContentStatus.escalated) := by
  by_cases hesc : (scoreContentML content n img).needs_human_review = true ∨
      (combineScores content (triage ck st.cache content).1 (scoreContentML content n img)
        (getRiskProfile decay nowDay st.store content.user_id).1).combined_risk_score > 6 / 10
  · have hrun := moderateContent_escalatePath ck decay nowDay st content n img hfa hblock hesc
    constructor
    · rw [hrun]
      exact iff_of_true ⟨rfl, rfl⟩ hesc
    · intro he hn
      rcases hesc with h | h
      · rw [hn] at h
        exact absurd h (by decide)
      · rw [he] at h
        exact absurd h (lt_irrefl _)
  · have hrun := moderateContent_finalPath ck decay nowDay st content n img hfa hblock hesc
    constructor
    · rw [hrun]
      constructor
      · rintro ⟨hd, -⟩
        exact absurd hd (makeFinalDecision_ne_escalated _)
      · intro h
        exact absurd h hesc
    · intro he hn
      rw [hrun]
      exact makeFinalDecision_ne_escalated _

/-- Benign text by an unknown user, for the C3 and C5 witnesses. -/
def contentC3w : Content := { id := 9, user_id := 77, text_content := some "hello" }

/-- Witness for C3 at a concrete clean content by an unknown user. -/
theorem C3_escalation_iff_witness :
    ((moderateContent ckEx (fun _ => 1) 0 { store := [], cache := [] } contentC3w {} {}).1.result.decision =
        ContentStatus.escalated ∧
      (moderateContent ckEx (fun _ => 1) 0 { store := [], cache := [] } contentC3w {} {}).1.review_task.isSome = true) ↔
      ((scoreContentML contentC3w {} {}).needs_human_review = true ∨
        (combineScores contentC3w (triage ckEx [] contentC3w).1 (scoreContentML contentC3w {} {})
          (getRiskProfile (fun _ => 1) 0 [] 77).1).combined_risk_score > 6 / 10) :=
  (C3_escalation_iff ckEx (fun _ => 1) 0 { store := [], cache := [] } contentC3w {} {}
    (by decide) (by decide)).1

/-- The pydantic `Field` bounds of `ReputationScore` the engine relies on,
plus `approved ≤ total` (which holds in every reachable state: the two
counters are only ever incremented together in `record_approval`). -/
def ReputationScore.Valid (r : ReputationScore) : Prop :=
  0 ≤ r.community_standing ∧ r.community_standing ≤ 100 ∧
  0 ≤ r.approval_rate ∧ r.approval_rate ≤ 1 ∧
  r.approved_posts ≤ r.total_posts

/-- All users in a store have valid reputation records. -/
def storeValid (store : UserStore) : Prop :=
  ∀ p ∈ store, (p.2 : User).reputation.Valid

/-- Triage confidence always lies in [0, 1]. -/
theorem triage_confidence_bounds (ck : TriageCheckers) (cache : List String) (content : Content) :
    0 ≤ (triage ck cache content).1.confidence ∧ (triage ck cache content).1.confidence ≤ 1 := by
  unfold triage
  simp only []
  split_ifs <;> simp_all [le_max_iff, max_le_iff] <;> norm_num

/-- The simulated ML confidence always lies in [0, 1]. -/
theorem scoreTextML_confidence_bounds (text : Option String) (n : MLNoise) :
    0 ≤ (scoreTextML text n).confidence ∧ (scoreTextML text n).confidence ≤ 1 := by
  unfold scoreTextML
  split_ifs
  · norm_num
  · refine ⟨le_min (by norm_num) (by positivity), ?_⟩
    exact le_trans (min_le_left _ _) (by norm_num)

/-- The decayed violation impact lies in [0, 100] for a nonnegative decay
curve. -/
theorem calcViolationImpact_bounds (decay : ℕ → ℚ) (hd : ∀ d, 0 ≤ decay d) (nowDay : ℕ)
    (vs : List ViolationHistory) :
    0 ≤ calcViolationImpact decay nowDay vs ∧ calcViolationImpact decay nowDay vs ≤ 100 := by
  unfold calcViolationImpact
  split_ifs
  · norm_num
  · refine ⟨le_min (by norm_num) ?_, min_le_left _ _⟩
    apply List.sum_nonneg
    intro x hx
    simp only [List.mem_map] at hx
    obtain ⟨v, -, rfl⟩ := hx
    have hdv := hd (nowDay - v.timestampDay)
    positivity

/-- The recomputed overall reputation score lies in [0, 100] for a valid
reputation record and nonnegative decay curve. -/
theorem calculateReputationScore_bounds (decay : ℕ → ℚ) (hd : ∀ d, 0 ≤ decay d) (nowDay : ℕ)
    (u : User) (hv : u.reputation.Valid) :
    0 ≤ (calculateReputationScore decay nowDay u).overall_score ∧
    (calculateReputationScore decay nowDay u).overall_score ≤ 100 := by
  obtain ⟨hc0, hc1, ha0, ha1, hat⟩ := hv
  have himp := calcViolationImpact_bounds decay hd nowDay u.reputation.violation_history
  unfold calculateReputationScore
  simp only []
  have hage0 : (0 : ℚ) ≤ min 100 (((nowDay - u.created_atDay : ℕ) : ℚ) / (365 / 100)) :=
    le_min (by norm_num) (by positivity)
  have hage1 : min 100 (((nowDay - u.created_atDay : ℕ) : ℚ) / (365 / 100)) ≤ 100 :=
    min_le_left _ _
  by_cases ht : u.reputation.total_posts > 0
  · rw [if_pos ht]
    have htq : (0 : ℚ) < (u.reputation.total_posts : ℚ) := by exact_mod_cast ht
    have hr0 : (0 : ℚ) ≤ (u.reputation.approved_posts : ℚ) / (u.reputation.total_posts : ℚ) :=
      div_nonneg (by positivity) (le_of_lt htq)
    have hr1 : (u.reputation.approved_posts : ℚ) / (u.reputation.total_posts : ℚ) ≤ 1 := by
      rw [div_le_one htq]
      exact_mod_cast hat
    constructor <;> nlinarith [himp.1, himp.2]
  · rw [if_neg ht]
    constructor <;> nlinarith [himp.1, himp.2]

/-- A lookup in a valid store yields a valid reputation record. -/
theorem lookupUser_valid : ∀ (store : UserStore), storeValid store →
    ∀ (uid : ℕ) (u : User), lookupUser store uid = some u → u.reputation.Valid := by
  intro store
  induction store with
  | nil =>
    intro hs uid u h
    simp [lookupUser, List.lookup] at h
  | cons p rest ih =>
    intro hs uid u h
    rcases p with ⟨k, v⟩
    simp only [lookupUser, List.lookup] at h
    cases hbeq : (uid == k) with
    | true =>
      rw [hbeq] at h
      simp only [Option.some.injEq] at h
      rw [← h]
      exact hs (k, v) (List.mem_cons_self _ _)
    | false =>
      rw [hbeq] at h
      exact ih (fun q hq => hs q (List.mem_cons_of_mem _ hq)) uid u h

/-- The derived risk score lies in [0, 1] for a valid store. -/
theorem getRiskProfile_risk_bounds (decay : ℕ → ℚ) (hd : ∀ d, 0 ≤ decay d) (nowDay : ℕ)
    (store : UserStore) (hs : storeValid store) (uid : ℕ) :
    0 ≤ (getRiskProfile decay nowDay store uid).1.risk_score ∧
    (getRiskProfile decay nowDay store uid).1.risk_score ≤ 1 := by
  unfold getRiskProfile
  cases hlk : lookupUser store uid with
  | none =>
    norm_num
  | some u =>
    have hv := lookupUser_valid store hs uid u hlk
    have hb := calculateReputationScore_bounds decay hd nowDay u hv
    simp only []
    constructor <;> [linarith [hb.2]; linarith [hb.1]]

/-- Claim C5: on every path of `moderate_content` — fast approval, tier-1
block, tier-2 combination (escalated or final) — the returned
`combined_risk_score` lies in [0, 1], assuming the store's reputation
records satisfy their declared field bounds and the decay curve is
nonnegative. -/
theorem C5_combined_risk_in_unit (ck : TriageCheckers) (decay : ℕ → ℚ) (nowDay : ℕ)
    (st : PipelineState) (content : Content) (n : MLNoise) (img : ImageAnalysis)
    (hd : ∀ d, 0 ≤ decay d) (hs : storeValid st.store) :
    0 ≤ (moderateContent ck decay nowDay st content n img).1.result.combined_risk_score ∧
    (moderateContent ck decay nowDay st content n img).1.result.combined_risk_score ≤ 1 := by
  cases hfa : canFastApprove (getRiskProfile decay nowDay st.store content.user_id).1 content with
  | true =>
    rw [moderateContent_fastPath ck decay nowDay st content n img hfa]
    norm_num [createFastApproval]
  | false =>
    have hcomb :
        0 ≤ (combineScores content (triage ck st.cache content).1 (scoreContentML content n img)
          (getRiskProfile decay nowDay st.store content.user_id).1).combined_risk_score ∧
        (combineScores content (triage ck st.cache content).1 (scoreContentML content n img)
          (getRiskProfile decay nowDay st.store content.user_id).1).combined_risk_score ≤ 1 := by
      have h1 := triage_confidence_bounds ck st.cache content
      have h2 := scoreTextML_confidence_bounds content.text_content n
      have h3 := getRiskProfile_risk_bounds decay hd nowDay st.store hs content.user_id
      have hml : (scoreContentML content n img).ml_scores = scoreTextML content.text_content n := rfl
      unfold combineScores
      simp only [hml]
      constructor <;> nlinarith [h1.1, h1.2, h2.1, h2.2, h3.1, h3.2]
    cases hblock : (triage ck st.cache content).1.should_block with
    | true =>
      rw [moderateContent_blockPath ck decay nowDay st content n img hfa hblock]
      simp only [createModerationResult]
      exact triage_confidence_bounds ck st.cache content
    | false =>
      by_cases hesc : (scoreContentML content n img).needs_human_review = true ∨
          (combineScores content (triage ck st.cache content).1 (scoreContentML content n img)
            (getRiskProfile decay nowDay st.store content.user_id).1).combined_risk_score > 6 / 10
      · rw [moderateContent_escalatePath ck decay nowDay st content n img hfa hblock hesc]
        exact hcomb
      · rw [moderateContent_finalPath ck decay nowDay st content n img hfa hblock hesc]
        exact hcomb

/-- Witness for C5: a concrete clean content by an unknown user with the
zero noise draw. -/
theorem C5_combined_risk_witness :
    0 ≤ (moderateContent ckEx (fun _ => 1) 0 { store := [], cache := [] } contentC3w {} {}).1.result.combined_risk_score ∧
    (moderateContent ckEx (fun _ => 1) 0 { store := [], cache := [] } contentC3w {} {}).1.result.combined_risk_score ≤ 1 :=
  C5_combined_risk_in_unit ckEx (fun _ => 1) 0 { store := [], cache := [] } contentC3w {} {}
    (fun _ => zero_le_one) (fun p hp => absurd hp (List.not_mem_nil p))

end ContentMod
